import Mathlib

/-!
# Smart Allotment Hub — verification of the spec against the code

Shallow embedding of the `smart_allotment_hub` repository: the persistent
relational store declared in `src/database/init.sql`, `src/database/schemas.sql`
and the registry schema (`sites` / `devices` / `sensors` / `sensor_data`),
together with the dashboard JavaScript (`buildHistoryUrl`, `updateChart`)
and — where the backend service code is absent from the repository snapshot —
models of the ingestion pipeline, registry resolver, authorization layer and
query service built from the specification's words.

Timestamps are modelled as natural numbers of milliseconds (JavaScript `Date`
arithmetic and SQL `TIMESTAMPTZ` comparisons are order-embeddings into this
model).  Numeric sensor values are modelled as rationals: the code only carries
them through, never computes with them.
-/

namespace SmartAllotment

/-- Timestamps: milliseconds since the epoch. -/
abbrev Time := Nat

/-- A row of the `sessions` table (`init.sql`): only the columns the claims
touch are modelled, plus the audit columns carried through untouched. -/
structure SessionRow where
  id : Nat
  user_id : Nat
  session_token : String
  expires_at : Time
  deriving Repr, DecidableEq

/-- A row of the `api_tokens` table (`init.sql` lines 162–176). -/
structure ApiTokenRow where
  id : Nat
  token : String
  user_id : Option Nat
  device_id : Option Nat
  name : String
  scopes : List String
  active : Bool
  last_used : Option Time
  expires_at : Option Time
  deriving Repr, DecidableEq

/-- The `check_owner` CHECK constraint of `api_tokens`
(`init.sql` line 175): `user_id IS NOT NULL OR device_id IS NOT NULL`. -/
def check_owner (r : ApiTokenRow) : Bool :=
  r.user_id.isSome || r.device_id.isSome

/-- The owner invariant as the spec words it: exactly one of `user_id` and
`device_id` is set (never both null, never both set). -/
def exactlyOneOwner (r : ApiTokenRow) : Prop :=
  (r.user_id.isSome ∧ r.device_id = none) ∨ (r.user_id = none ∧ r.device_id.isSome)

instance (r : ApiTokenRow) : Decidable (exactlyOneOwner r) := by
  unfold exactlyOneOwner; infer_instance

/-- Inserting a token row: the store accepts the row iff it satisfies the
`check_owner` CHECK constraint, the only owner-shape enforcement in the
schema. -/
def insert_api_token (r : ApiTokenRow) (rows : List ApiTokenRow) :
    Option (List ApiTokenRow) :=
  if check_owner r then some (rows ++ [r]) else none

/-- Updating a token row in place (by id): the store re-checks the CHECK
constraint on the updated row and rejects the update otherwise. -/
def update_api_token (i : Nat) (f : ApiTokenRow → ApiTokenRow)
    (rows : List ApiTokenRow) : Option (List ApiTokenRow) :=
  if rows.all (fun r => if r.id = i then check_owner (f r) else true) then
    some (rows.map (fun r => if r.id = i then f r else r))
  else none

/-- `cleanup_expired_sessions` (`init.sql` lines 145–150):
`DELETE FROM sessions WHERE expires_at < NOW()`. -/
def cleanup_expired_sessions (now : Time) (rows : List SessionRow) :
    List SessionRow :=
  rows.filter (fun r => ! decide (r.expires_at < now))

/-- The SQL predicate `expires_at < NOW() AND expires_at IS NOT NULL`:
true exactly on rows with a non-null expiry in the past (a NULL `expires_at`
makes the comparison NULL, hence the row is not deleted). -/
def tokenExpired (now : Time) (r : ApiTokenRow) : Bool :=
  match r.expires_at with
  | some t => decide (t < now)
  | none => false

/-- `cleanup_expired_tokens` (`init.sql` lines 185–190):
`DELETE FROM api_tokens WHERE expires_at < NOW() AND expires_at IS NOT NULL`. -/
def cleanup_expired_tokens (now : Time) (rows : List ApiTokenRow) :
    List ApiTokenRow :=
  rows.filter (fun r => ! tokenExpired now r)

/-- `buildHistoryUrl` (`static/js/dashboard.js` lines 95–104), custom-range
branch: the `hours` query parameter computed from an explicit range, in
milliseconds: `Math.ceil((toDate - fromDate) / (1000 * 60 * 60))`. -/
def buildHistoryUrlHours (fromMs toMs : Time) : Nat :=
  ((toMs - fromMs) + (3600000 - 1)) / 3600000

/-- One reading as returned by `GET /api/history/...` and consumed by the
dashboard charts: `{sensor_type, sensor_value, timestamp}`. -/
structure ApiReading where
  sensor_type : String
  sensor_value : Rat
  timestamp : Time
  deriving Repr, DecidableEq

/-- The filtering stage of `updateChart` (`static/js/dashboard.js`
lines 236–246): keep readings of the chart's sensor type, and — when an
explicit custom range `{from, to}` is active — only readings with
`from ≤ timestamp ≤ to`.  The surviving list is exactly what is plotted. -/
def updateChartFiltered (chartType : String) (range : Option (Time × Time))
    (data : List ApiReading) : List ApiReading :=
  let filtered := data.filter (fun r => r.sensor_type == chartType)
  match range with
  | some (f, t) =>
      filtered.filter (fun r => decide (f ≤ r.timestamp) && decide (r.timestamp ≤ t))
  | none => filtered

/-- A row of the `devices` table (registry schema: `id`, unique `uid`, `name`,
`active`, `last_seen`, nullable `site_id`). -/
structure DeviceRow where
  id : Nat
  uid : String
  name : Option String
  active : Bool
  last_seen : Option Time
  site_id : Option Nat
  deriving Repr, DecidableEq

/-- A row of the `sensors` table (registry schema: `id`, `device_id`,
`sensor_name`, `sensor_type`, `unit`, `last_value`, `last_seen`, with
`UNIQUE(device_id, sensor_name)`), plus the `active` flag of the spec's
Sensor model that the sensors page (`/api/sensors/list`,
`/api/sensors/{id}/activate|deactivate`) reads and toggles. -/
structure SensorRow where
  id : Nat
  device_id : Nat
  sensor_name : String
  sensor_type : String
  unit : Option String
  active : Bool
  last_value : Option Rat
  last_seen : Option Time
  deriving Repr, DecidableEq

/-- A row of the canonical long-table `sensor_data` readings store: one
timestamped measurement (site nullable for unassigned devices, per the
spec's unscoped readings). -/
structure ReadingRow where
  id : Nat
  site_id : Option Nat
  device_id : Nat
  time : Time
  sensor_name : String
  sensor_type : String
  value : Rat
  unit : Option String
  deriving Repr, DecidableEq

/-- The registry portion of the store: device and sensor rows plus the
serial-id counters of the `SERIAL PRIMARY KEY` columns. -/
structure Registry where
  devices : List DeviceRow
  sensors : List SensorRow
  nextDeviceId : Nat
  nextSensorId : Nat
  deriving Repr, DecidableEq

/-- Registry well-formedness, from the schema: serial ids are below the
counters, `devices.uid` is unique, `(device_id, sensor_name)` is unique,
and `sensors.device_id` is a foreign key into `devices`. -/
def Registry.WF (reg : Registry) : Prop :=
  (∀ d ∈ reg.devices, d.id < reg.nextDeviceId) ∧
  reg.devices.Pairwise (fun a b => a.uid ≠ b.uid) ∧
  (∀ s ∈ reg.sensors, s.id < reg.nextSensorId) ∧
  reg.sensors.Pairwise
    (fun a b => a.device_id ≠ b.device_id ∨ a.sensor_name ≠ b.sensor_name) ∧
  (∀ s ∈ reg.sensors, ∃ d ∈ reg.devices, d.id = s.device_id)

/-- The full store state the ingestion pipeline mutates. -/
structure IngestState where
  reg : Registry
  readings : List ReadingRow
  nextReadingId : Nat
  deriving Repr, DecidableEq

/-- Device lookup predicate: row matches the message's device uid. -/
def devMatch (uid : String) (d : DeviceRow) : Bool := d.uid == uid

/-- The liveness update the resolver applies to the matching device row:
`last_seen = now`, `active = true`, all other columns untouched. -/
def devUpd (now : Time) (uid : String) (x : DeviceRow) : DeviceRow :=
  if devMatch uid x then { x with last_seen := some now, active := true } else x

/-- Sensor lookup predicate: row matches `(device_id, sensor_name)`. -/
def senMatch (devId : Nat) (nm : String) (s : SensorRow) : Bool :=
  s.device_id == devId && s.sensor_name == nm

/-- The cache update the resolver applies to the matching sensor row:
`last_value` and `last_seen` only — `active` is left as previously set. -/
def senUpd (devId : Nat) (nm : String) (value : Rat) (now : Time)
    (x : SensorRow) : SensorRow :=
  if senMatch devId nm x then { x with last_value := some value, last_seen := some now }
  else x

/-- Modelled from the spec: the Registry Resolver's device find-or-create
(§4.1) — the backend service implementing it is not in the repository
snapshot, only its schema is.  If no device with the uid exists, create one
with `active = true`, `last_seen = now`, no site assignment; if it exists,
re-assert liveness.  Returns the updated registry with the device's id and
current site assignment. -/
def resolveDevice (reg : Registry) (uid : String) (now : Time) :
    Registry × Nat × Option Nat :=
  match reg.devices.find? (devMatch uid) with
  | some d => ({ reg with devices := reg.devices.map (devUpd now uid) }, d.id, d.site_id)
  | none =>
      let d : DeviceRow :=
        { id := reg.nextDeviceId, uid := uid, name := none, active := true,
          last_seen := some now, site_id := none }
      ({ reg with devices := reg.devices ++ [d],
                  nextDeviceId := reg.nextDeviceId + 1 }, d.id, none)

/-- The device id and site the resolver resolves a uid to, without mutating:
the matching row's id/site if present, else the id the created row gets. -/
def resolvedDev (reg : Registry) (uid : String) : Nat × Option Nat :=
  match reg.devices.find? (devMatch uid) with
  | some d => (d.id, d.site_id)
  | none => (reg.nextDeviceId, none)

/-- Modelled from the spec: the Registry Resolver's sensor find-or-create
(§4.1).  If no sensor with `(device_id, sensor_name)` exists, create one
with the supplied type/unit, marked active, carrying the value as
`last_value`; if it exists, update `last_value`/`last_seen` and leave
`active` as previously set. -/
def upsertSensor (reg : Registry) (devId : Nat) (nm ty : String)
    (unit : Option String) (value : Rat) (now : Time) : Registry :=
  match reg.sensors.find? (senMatch devId nm) with
  | some _ => { reg with sensors := reg.sensors.map (senUpd devId nm value now) }
  | none =>
      { reg with
        sensors := reg.sensors ++
          [{ id := reg.nextSensorId, device_id := devId, sensor_name := nm,
             sensor_type := ty, unit := unit, active := true,
             last_value := some value, last_seen := some now }],
        nextSensorId := reg.nextSensorId + 1 }

/-- One sensor entry of a parsed inbound message: `{type, id, value}`. -/
structure SensorEntry where
  type : String
  id : String
  value : Rat
  deriving Repr, DecidableEq

/-- A parsed inbound telemetry message. -/
structure ParsedMsg where
  device_id : String
  sensors : List SensorEntry
  deriving Repr, DecidableEq

/-- Modelled from the spec: processing one sensor entry of a message
(§4.2) — resolve the device, upsert the sensor, then append one Reading row
(append-only; the reading is stored even for a deactivated sensor). -/
def processEntry (now : Time) (uid : String) (st : IngestState)
    (e : SensorEntry) : IngestState :=
  let r1 := resolveDevice st.reg uid now
  let reg2 := upsertSensor r1.1 r1.2.1 e.id e.type none e.value now
  { reg := reg2,
    readings := st.readings ++
      [{ id := st.nextReadingId, site_id := r1.2.2, device_id := r1.2.1,
         time := now, sensor_name := e.id, sensor_type := e.type,
         value := e.value, unit := none }],
    nextReadingId := st.nextReadingId + 1 }

/-- Modelled from the spec: ingesting a parsed message processes its sensor
entries in order, each through the Registry Resolver and the readings
store. -/
def ingestParsed (now : Time) (st : IngestState) (msg : ParsedMsg) :
    IngestState :=
  msg.sensors.foldl (processEntry now msg.device_id) st

/-- A JSON value, the payload universe of the ingest transport. -/
inductive Json where
  | null
  | bool (b : Bool)
  | num (q : Rat)
  | str (s : String)
  | arr (items : List Json)
  | obj (fields : List (String × Json))

/-- First field of an object with the given key, if any. -/
def lookupField (fields : List (String × Json)) (k : String) : Option Json :=
  (fields.find? (fun p => p.1 == k)).map (fun p => p.2)

/-- Modelled from the spec: parsing one sensor entry — an object carrying a
string `type`, a string `id` and a numeric `value` (§6). -/
def parseSensorEntry (j : Json) : Option SensorEntry :=
  match j with
  | .obj fs =>
      match lookupField fs "type", lookupField fs "id", lookupField fs "value" with
      | some (.str ty), some (.str sid), some (.num v) => some ⟨ty, sid, v⟩
      | _, _, _ => none
  | _ => none

/-- Parse every element of the `sensors` array, failing if any element is
malformed. -/
def parseSensorList : List Json → Option (List SensorEntry)
  | [] => some []
  | j :: rest =>
      match parseSensorEntry j, parseSensorList rest with
      | some e, some es => some (e :: es)
      | _, _ => none

/-- Modelled from the spec: payload parsing (§4.2/§6) — the payload must be
an object with a string `device_id` and a non-empty `sensors` array of
well-formed entries; the flattened legacy form with numeric `temperature`
and `soil_moisture` fields is also accepted.  `none` means the message
fails to parse. -/
def parseMessage (payload : Json) : Option ParsedMsg :=
  match payload with
  | .obj fs =>
      match lookupField fs "device_id" with
      | some (.str did) =>
          match lookupField fs "sensors" with
          | some (.arr items) =>
              if items.isEmpty then none
              else
                match parseSensorList items with
                | some es => some ⟨did, es⟩
                | none => none
          | _ =>
              match lookupField fs "temperature", lookupField fs "soil_moisture" with
              | some (.num t), some (.num m) =>
                  some ⟨did, [⟨"temperature", "temperature", t⟩,
                              ⟨"moisture", "soil_moisture", m⟩]⟩
              | _, _ => none
      | _ => none
  | _ => none

/-- The error taxonomy of §7. -/
inductive ApiError where
  | ValidationError
  | NotFoundError
  | AuthenticationError
  | AuthorizationError
  deriving Repr, DecidableEq

/-- Modelled from the spec: the per-message pipeline (§4.2) — a message
failing to parse is rejected with a `ValidationError` and produces no
writes; a parsed message is ingested. -/
def handleMessage (now : Time) (st : IngestState) (payload : Json) :
    IngestState × Option ApiError :=
  match parseMessage payload with
  | none => (st, some ApiError.ValidationError)
  | some msg => (ingestParsed now st msg, none)

/-- The closed role enumeration enforced by `users.check_role`:
`sys_admin` or `user`. -/
inductive Role where
  | sys_admin
  | user
  deriving Repr, DecidableEq

/-- Modelled from the spec: the caller identity the Authorization Layer
resolves from a valid session or user-owned API token (the backend service
is not in the repository snapshot) — a role and the permitted site set
(`sys_admin` ⇒ universal visibility, `user` ⇒ exactly the assigned
sites). -/
structure Caller where
  role : Role
  siteIds : List Nat
  deriving Repr, DecidableEq

/-- Modelled from the spec: the capability check gating device-scoped
queries (§4.3/§7).  A non-`sys_admin` caller receives the same
`AuthorizationError` whether the target device is missing, unassigned, or
assigned to a site outside the caller's permitted set; a `sys_admin` sees
`NotFoundError` for a missing device and is otherwise authorized. -/
def authorizeDeviceQuery (caller : Caller) (devices : List DeviceRow)
    (uid : String) : Except ApiError DeviceRow :=
  match devices.find? (devMatch uid) with
  | none =>
      if caller.role = Role.sys_admin then Except.error ApiError.NotFoundError
      else Except.error ApiError.AuthorizationError
  | some d =>
      if caller.role = Role.sys_admin then Except.ok d
      else
        match d.site_id with
        | some sId =>
            if sId ∈ caller.siteIds then Except.ok d
            else Except.error ApiError.AuthorizationError
        | none => Except.error ApiError.AuthorizationError

/-- Modelled from the spec: `latest(device_uid)` — per sensor on the
device, the cached most recent value and timestamp. -/
def latestQuery (devId : Nat) (sensors : List SensorRow) :
    List (String × Option Rat × Option Time) :=
  (sensors.filter (fun s => s.device_id == devId)).map
    (fun s => (s.sensor_type, s.last_value, s.last_seen))

/-- Modelled from the spec: `history(device_uid, {hours: N})` — the
device's readings within `[now − N hours, now]` (milliseconds), ordered by
ascending timestamp. -/
def historyQuery (devId : Nat) (hours : Nat) (now : Time)
    (readings : List ReadingRow) : List ReadingRow :=
  List.insertionSort (fun a b => a.time ≤ b.time)
    (readings.filter (fun r => r.device_id == devId
      && decide (now - hours * 3600000 ≤ r.time) && decide (r.time ≤ now)))

/-- Modelled from the spec: the latest endpoint behind the capability
check. -/
def latestService (caller : Caller) (reg : Registry) (uid : String) :
    Except ApiError (List (String × Option Rat × Option Time)) :=
  match authorizeDeviceQuery caller reg.devices uid with
  | Except.error e => Except.error e
  | Except.ok d => Except.ok (latestQuery d.id reg.sensors)

/-- Modelled from the spec: the history endpoint behind the capability
check. -/
def historyService (caller : Caller) (reg : Registry)
    (readings : List ReadingRow) (uid : String) (hours : Nat) (now : Time) :
    Except ApiError (List ReadingRow) :=
  match authorizeDeviceQuery caller reg.devices uid with
  | Except.error e => Except.error e
  | Except.ok d => Except.ok (historyQuery d.id hours now readings)

end SmartAllotment

namespace SmartAllotment

/-! ## Claims C2, C7, C8, C10 -/

/-- A token row with both owners set: accepted by `check_owner`. -/
def bothOwnersToken : ApiTokenRow :=
  { id := 1, token := "tok-1", user_id := some 1, device_id := some 2,
    name := "both", scopes := [], active := true, last_used := none,
    expires_at := none }

/-- C2 fails as stated: the store's only owner-shape enforcement is the
`check_owner` CHECK constraint, which accepts a row with *both* `user_id` and
`device_id` set — the insert succeeds although the row does not have exactly
one owner. -/
theorem C2_counterexample_both_owners_accepted :
    insert_api_token bothOwnersToken [] = some [bothOwnersToken] ∧
      ¬ exactlyOneOwner bothOwnersToken := by
  constructor
  · rfl
  · decide

/-- C2 (amended): every ApiToken row has at least one owner — `user_id` and
`device_id` are never both null; this is what the store's `check_owner`
constraint enforces, and it holds after every insert or update the store
accepts (the constraint does not forbid both owners being set). -/
theorem C2_amended_at_least_one_owner
    (r : ApiTokenRow) (i : Nat) (f : ApiTokenRow → ApiTokenRow)
    (rows rows₁ rows₂ : List ApiTokenRow)
    (hinv : ∀ x ∈ rows, check_owner x = true)
    (hins : insert_api_token r rows = some rows₁)
    (hupd : update_api_token i f rows = some rows₂) :
    (∀ x ∈ rows₁, check_owner x = true ∧ ¬ (x.user_id = none ∧ x.device_id = none)) ∧
    (∀ x ∈ rows₂, check_owner x = true ∧ ¬ (x.user_id = none ∧ x.device_id = none)) := by
  have hco : ∀ x : ApiTokenRow, check_owner x = true →
      ¬ (x.user_id = none ∧ x.device_id = none) := by
    intro x hx ⟨h1, h2⟩
    simp [check_owner, h1, h2] at hx
  unfold insert_api_token at hins
  unfold update_api_token at hupd
  split at hins
  case isTrue hc =>
    cases hins
    split at hupd
    case isTrue hall =>
      cases hupd
      refine ⟨?_, ?_⟩
      · intro x hx
        rcases List.mem_append.1 hx with h | h
        · exact ⟨hinv x h, hco x (hinv x h)⟩
        · rcases List.mem_singleton.1 h with rfl
          exact ⟨hc, hco x hc⟩
      · intro x hx
        rcases List.mem_map.1 hx with ⟨y, hy, rfl⟩
        by_cases hid : y.id = i
        · have := List.all_eq_true.1 hall y hy
          simp only [hid, if_true] at this ⊢
          exact ⟨this, hco _ this⟩
        · simp only [hid, if_false]
          exact ⟨hinv y hy, hco y (hinv y hy)⟩
    case isFalse => exact absurd hupd (by simp)
  case isFalse => exact absurd hins (by simp)

/-- Witness for C2's amended theorem at a concrete store. -/
theorem C2_amended_witness :
    (∀ x ∈ [bothOwnersToken], check_owner x = true ∧
        ¬ (x.user_id = none ∧ x.device_id = none)) ∧
    (∀ x ∈ ([] : List ApiTokenRow), check_owner x = true ∧
        ¬ (x.user_id = none ∧ x.device_id = none)) :=
  C2_amended_at_least_one_owner bothOwnersToken 0 id [] [bothOwnersToken]
    [] (by intro x hx; cases hx) (by rfl) (by rfl)

/-- C7: for an explicit custom range with `from` strictly earlier than `to`,
`buildHistoryUrl` requests `hours = ⌈(to − from) / 1 hour⌉`: the span is
rounded up to the next whole hour, at least covers the span, overshoots by
less than an hour, and equals the exact span whenever the span is already a
whole number of hours. -/
theorem C7_buildHistoryUrl_rounds_up (fromMs toMs : Nat)
    (h : fromMs < toMs) :
    (toMs - fromMs) ≤ buildHistoryUrlHours fromMs toMs * 3600000 ∧
    (buildHistoryUrlHours fromMs toMs - 1) * 3600000 < (toMs - fromMs) ∧
    (∀ k, toMs - fromMs = k * 3600000 → buildHistoryUrlHours fromMs toMs = k) := by
  unfold buildHistoryUrlHours
  refine ⟨?_, ?_, ?_⟩
  · omega
  · omega
  · intro k hk
    omega

/-- Witness for C7 at a concrete range (90 minutes → 2 hours). -/
theorem C7_witness :
    (5400000 - 0 ≤ buildHistoryUrlHours 0 5400000 * 3600000 ∧
     (buildHistoryUrlHours 0 5400000 - 1) * 3600000 < 5400000 - 0 ∧
     (∀ k, 5400000 - 0 = k * 3600000 → buildHistoryUrlHours 0 5400000 = k)) :=
  C7_buildHistoryUrl_rounds_up 0 5400000 (by norm_num)

/-- C8: `cleanup_expired_sessions` deletes exactly the session rows with
`expires_at` earlier than now; `cleanup_expired_tokens` deletes exactly the
token rows with a non-null `expires_at` earlier than now (tokens without an
expiry are never deleted); every surviving row is kept unchanged and in
order (the result is a sublist of the input), and both sweeps are
idempotent. -/
theorem C8_cleanup_sweeps (now : Time)
    (ss : List SessionRow) (ts : List ApiTokenRow) :
    (∀ r, r ∈ cleanup_expired_sessions now ss ↔
        (r ∈ ss ∧ ¬ r.expires_at < now)) ∧
    (cleanup_expired_sessions now (cleanup_expired_sessions now ss) =
        cleanup_expired_sessions now ss) ∧
    (cleanup_expired_sessions now ss).Sublist ss ∧
    (∀ r, r ∈ cleanup_expired_tokens now ts ↔
        (r ∈ ts ∧ ¬ ∃ t, r.expires_at = some t ∧ t < now)) ∧
    (cleanup_expired_tokens now (cleanup_expired_tokens now ts) =
        cleanup_expired_tokens now ts) ∧
    (cleanup_expired_tokens now ts).Sublist ts := by
  have htok : ∀ r : ApiTokenRow,
      tokenExpired now r = true ↔ ∃ t, r.expires_at = some t ∧ t < now := by
    intro r
    unfold tokenExpired
    cases hr : r.expires_at with
    | none => simp
    | some t => simp
  refine ⟨?_, ?_, ?_, ?_, ?_, ?_⟩
  · intro r
    simp [cleanup_expired_sessions, List.mem_filter]
  · unfold cleanup_expired_sessions
    rw [List.filter_filter]
    congr 1
    funext r
    cases h : decide (r.expires_at < now) <;> simp [h]
  · exact List.filter_sublist _
  · intro r
    simp only [cleanup_expired_tokens, List.mem_filter, Bool.not_eq_true']
    constructor
    · rintro ⟨hmem, hexp⟩
      refine ⟨hmem, fun hex => ?_⟩
      rw [← htok r] at hex
      rw [hexp] at hex
      cases hex
    · rintro ⟨hmem, hexp⟩
      refine ⟨hmem, ?_⟩
      cases hx : tokenExpired now r with
      | false => rfl
      | true => exact absurd ((htok r).1 hx) hexp
  · unfold cleanup_expired_tokens
    rw [List.filter_filter]
    congr 1
    funext r
    cases h : tokenExpired now r <;> simp [h]
  · exact List.filter_sublist _

/-- C10: with an explicit custom range, `updateChart` plots only readings
whose sensor type matches the chart and whose timestamp lies inside the
requested `[from, to]` — readings fetched outside the exact bounds by the
hour-rounded request are never displayed. -/
theorem C10_updateChart_clips_to_range (f t : Time) (chartType : String)
    (data : List ApiReading) :
    ∀ r ∈ updateChartFiltered chartType (some (f, t)) data,
      r.sensor_type = chartType ∧ f ≤ r.timestamp ∧ r.timestamp ≤ t := by
  intro r hr
  unfold updateChartFiltered at hr
  simp only [List.mem_filter, Bool.and_eq_true, decide_eq_true_eq,
    beq_iff_eq] at hr
  exact ⟨hr.1.2, hr.2.1, hr.2.2⟩

/-- Witness for C10 at a concrete range and reading list. -/
theorem C10_witness :
    (⟨"temperature", 5, 100⟩ : ApiReading).sensor_type = "temperature" ∧
      50 ≤ (⟨"temperature", 5, 100⟩ : ApiReading).timestamp ∧
      (⟨"temperature", 5, 100⟩ : ApiReading).timestamp ≤ 200 :=
  C10_updateChart_clips_to_range 50 200 "temperature"
    [⟨"temperature", 5, 100⟩, ⟨"moisture", 3, 300⟩] ⟨"temperature", 5, 100⟩
    (by decide)

/-! ## Registry helper lemmas -/

/-- Number of device rows with the given uid. -/
def Registry.devCount (reg : Registry) (uid : String) : Nat :=
  reg.devices.countP (devMatch uid)

/-- Number of sensor rows with the given `(device_id, sensor_name)` key. -/
def Registry.senCount (reg : Registry) (devId : Nat) (nm : String) : Nat :=
  reg.sensors.countP (senMatch devId nm)

theorem devUpd_id (now : Nat) (uid : String) (x : DeviceRow) :
    (devUpd now uid x).id = x.id := by
  unfold devUpd; split <;> rfl

theorem devUpd_uid (now : Nat) (uid : String) (x : DeviceRow) :
    (devUpd now uid x).uid = x.uid := by
  unfold devUpd; split <;> rfl

theorem devUpd_name (now : Nat) (uid : String) (x : DeviceRow) :
    (devUpd now uid x).name = x.name := by
  unfold devUpd; split <;> rfl

theorem devUpd_site (now : Nat) (uid : String) (x : DeviceRow) :
    (devUpd now uid x).site_id = x.site_id := by
  unfold devUpd; split <;> rfl

theorem senUpd_id (devId : Nat) (nm : String) (v : Rat) (now : Nat)
    (x : SensorRow) : (senUpd devId nm v now x).id = x.id := by
  unfold senUpd; split <;> rfl

theorem senUpd_device_id (devId : Nat) (nm : String) (v : Rat) (now : Nat)
    (x : SensorRow) : (senUpd devId nm v now x).device_id = x.device_id := by
  unfold senUpd; split <;> rfl

theorem senUpd_sensor_name (devId : Nat) (nm : String) (v : Rat) (now : Nat)
    (x : SensorRow) : (senUpd devId nm v now x).sensor_name = x.sensor_name := by
  unfold senUpd; split <;> rfl

theorem senUpd_sensor_type (devId : Nat) (nm : String) (v : Rat) (now : Nat)
    (x : SensorRow) : (senUpd devId nm v now x).sensor_type = x.sensor_type := by
  unfold senUpd; split <;> rfl

theorem senUpd_unit (devId : Nat) (nm : String) (v : Rat) (now : Nat)
    (x : SensorRow) : (senUpd devId nm v now x).unit = x.unit := by
  unfold senUpd; split <;> rfl

theorem senUpd_active (devId : Nat) (nm : String) (v : Rat) (now : Nat)
    (x : SensorRow) : (senUpd devId nm v now x).active = x.active := by
  unfold senUpd; split <;> rfl

theorem devMatch_devUpd (now : Nat) (u uid : String) (x : DeviceRow) :
    devMatch u (devUpd now uid x) = devMatch u x := by
  unfold devMatch
  rw [devUpd_uid]

theorem senMatch_senUpd (j : Nat) (n : String) (devId : Nat) (nm : String)
    (v : Rat) (now : Nat) (x : SensorRow) :
    senMatch j n (senUpd devId nm v now x) = senMatch j n x := by
  unfold senMatch
  rw [senUpd_device_id, senUpd_sensor_name]

theorem upsertSensor_devices (reg : Registry) (devId : Nat) (nm ty : String)
    (unit : Option String) (v : Rat) (now : Nat) :
    (upsertSensor reg devId nm ty unit v now).devices = reg.devices := by
  unfold upsertSensor; split <;> rfl

theorem upsertSensor_nextDeviceId (reg : Registry) (devId : Nat)
    (nm ty : String) (unit : Option String) (v : Rat) (now : Nat) :
    (upsertSensor reg devId nm ty unit v now).nextDeviceId = reg.nextDeviceId := by
  unfold upsertSensor; split <;> rfl

/-- The resolver resolves a uid to `resolvedDev`'s id/site pair. -/
theorem resolveDevice_snd (reg : Registry) (uid : String) (now : Nat) :
    (resolveDevice reg uid now).2 = resolvedDev reg uid := by
  unfold resolveDevice resolvedDev
  cases h : reg.devices.find? (devMatch uid) <;> simp

/-- The device row created on a miss. -/
def newDevice (uid : String) (now : Nat) (i : Nat) : DeviceRow :=
  { id := i, uid := uid, name := none, active := true,
    last_seen := some now, site_id := none }

theorem resolveDevice_devices_found (reg : Registry) (uid : String)
    (now : Nat) (d : DeviceRow)
    (h : reg.devices.find? (devMatch uid) = some d) :
    (resolveDevice reg uid now).1.devices = reg.devices.map (devUpd now uid) := by
  unfold resolveDevice
  rw [h]

theorem resolveDevice_devices_none (reg : Registry) (uid : String)
    (now : Nat) (h : reg.devices.find? (devMatch uid) = none) :
    (resolveDevice reg uid now).1.devices =
      reg.devices ++ [newDevice uid now reg.nextDeviceId] := by
  unfold resolveDevice
  rw [h]
  rfl

/-- Resolution is stable: the id/site a uid resolves to is unchanged by the
resolver's own mutation. -/
theorem resolvedDev_resolveDevice (reg : Registry) (uid : String) (now : Nat) :
    resolvedDev (resolveDevice reg uid now).1 uid = resolvedDev reg uid := by
  cases h : reg.devices.find? (devMatch uid) with
  | some d =>
      have hdev := resolveDevice_devices_found reg uid now d h
      have hfind : ((resolveDevice reg uid now).1.devices).find? (devMatch uid)
          = some (devUpd now uid d) := by
        rw [hdev, List.find?_map]
        have : (devMatch uid ∘ devUpd now uid) = devMatch uid := by
          funext x
          exact devMatch_devUpd now uid uid x
        rw [this, h]
        rfl
      unfold resolvedDev
      rw [hfind, h]
      simp [devUpd_id, devUpd_site]
  | none =>
      have hdev := resolveDevice_devices_none reg uid now h
      have hfull : ((resolveDevice reg uid now).1.devices).find? (devMatch uid)
          = some (newDevice uid now reg.nextDeviceId) := by
        rw [hdev, List.find?_append, List.find?_eq_none.2 ?_]
        · simp [List.find?, devMatch, newDevice]
        · intro a ha
          have := List.find?_eq_none.1 h a ha
          simpa using this
      unfold resolvedDev
      rw [hfull, h]
      rfl

/-- Resolution is stable across one ingestion step. -/
theorem resolvedDev_processEntry (now : Nat) (uid : String)
    (st : IngestState) (e : SensorEntry) :
    resolvedDev (processEntry now uid st e).reg uid = resolvedDev st.reg uid := by
  unfold processEntry
  simp only
  unfold resolvedDev
  rw [upsertSensor_devices, upsertSensor_nextDeviceId]
  have := resolvedDev_resolveDevice st.reg uid now
  unfold resolvedDev at this
  exact this

/-- Resolution is stable across a whole message. -/
theorem resolvedDev_fold (now : Nat) (uid : String)
    (entries : List SensorEntry) (st : IngestState) :
    resolvedDev ((entries.foldl (processEntry now uid) st).reg) uid =
      resolvedDev st.reg uid := by
  induction entries generalizing st with
  | nil => rfl
  | cons e rest ih =>
      rw [List.foldl_cons, ih]
      exact resolvedDev_processEntry now uid st e

/-! ## Claim C5 -/

/-- C5: processing a message entry for an existing device and existing
sensor updates the device list pointwise by `devUpd` (the matching row gets
`last_seen = now`, `active = true`, every other column and every other row
untouched) and the sensor list pointwise by `senUpd` (the matching row gets
`last_value`/`last_seen` updated, its `active` flag and every other column
untouched, every other row untouched), and the reading is still appended
unconditionally — in particular a deactivated sensor is not reactivated yet
its reading is stored. -/
theorem C5_existing_device_sensor_frame (now : Nat) (uid : String)
    (st : IngestState) (e : SensorEntry) (d : DeviceRow)
    (hd : st.reg.devices.find? (devMatch uid) = some d) (s : SensorRow)
    (hs : st.reg.sensors.find? (senMatch d.id e.id) = some s) :
    ((processEntry now uid st e).reg.devices =
        st.reg.devices.map (devUpd now uid)) ∧
    (∀ x, (devUpd now uid x).id = x.id ∧ (devUpd now uid x).uid = x.uid ∧
        (devUpd now uid x).name = x.name ∧
        (devUpd now uid x).site_id = x.site_id) ∧
    (∀ x, devMatch uid x = true →
        devUpd now uid x = { x with last_seen := some now, active := true }) ∧
    (∀ x, devMatch uid x = false → devUpd now uid x = x) ∧
    ((processEntry now uid st e).reg.sensors =
        st.reg.sensors.map (senUpd d.id e.id e.value now)) ∧
    (∀ x, (senUpd d.id e.id e.value now x).active = x.active ∧
        (senUpd d.id e.id e.value now x).id = x.id ∧
        (senUpd d.id e.id e.value now x).device_id = x.device_id ∧
        (senUpd d.id e.id e.value now x).sensor_name = x.sensor_name ∧
        (senUpd d.id e.id e.value now x).sensor_type = x.sensor_type ∧
        (senUpd d.id e.id e.value now x).unit = x.unit) ∧
    (∀ x, senMatch d.id e.id x = true →
        senUpd d.id e.id e.value now x =
          { x with last_value := some e.value, last_seen := some now }) ∧
    (∀ x, senMatch d.id e.id x = false → senUpd d.id e.id e.value now x = x) ∧
    ((processEntry now uid st e).readings = st.readings ++
        [{ id := st.nextReadingId, site_id := d.site_id, device_id := d.id,
           time := now, sensor_name := e.id, sensor_type := e.type,
           value := e.value, unit := none }]) := by
  have hsnd : (resolveDevice st.reg uid now).2 = (d.id, d.site_id) := by
    rw [resolveDevice_snd]
    unfold resolvedDev
    rw [hd]
  have hfst : (resolveDevice st.reg uid now).1 =
      { st.reg with devices := st.reg.devices.map (devUpd now uid) } := by
    unfold resolveDevice
    rw [hd]
  refine ⟨?_, ?_, ?_, ?_, ?_, ?_, ?_, ?_, ?_⟩
  · unfold processEntry
    simp only
    rw [upsertSensor_devices, hfst]
  · intro x
    exact ⟨devUpd_id now uid x, devUpd_uid now uid x, devUpd_name now uid x,
      devUpd_site now uid x⟩
  · intro x hx
    unfold devUpd
    rw [hx]
    simp
  · intro x hx
    unfold devUpd
    rw [hx]
    simp
  · unfold processEntry
    simp only
    rw [hfst, hsnd]
    unfold upsertSensor
    simp only [hs]
  · intro x
    exact ⟨senUpd_active _ _ _ _ x, senUpd_id _ _ _ _ x,
      senUpd_device_id _ _ _ _ x, senUpd_sensor_name _ _ _ _ x,
      senUpd_sensor_type _ _ _ _ x, senUpd_unit _ _ _ _ x⟩
  · intro x hx
    unfold senUpd
    rw [hx]
    simp
  · intro x hx
    unfold senUpd
    rw [hx]
    simp
  · unfold processEntry
    simp only
    rw [hsnd]

/-- A concrete one-device, one-sensor store used by the witnesses: the
sensor is deactivated, with stale caches. -/
def demoState : IngestState :=
  { reg :=
      { devices := [{ id := 1, uid := "dev-1", name := some "node",
                      active := false, last_seen := some 10, site_id := some 7 }],
        sensors := [{ id := 1, device_id := 1, sensor_name := "t1",
                      sensor_type := "temperature", unit := some "C",
                      active := false, last_value := some 1, last_seen := some 10 }],
        nextDeviceId := 2, nextSensorId := 2 },
    readings := [], nextReadingId := 1 }

/-- Witness for C5 at the concrete store: the deactivated sensor keeps
`active = false` while its reading is stored. -/
theorem C5_witness :
    ((processEntry 100 "dev-1" demoState ⟨"temperature", "t1", 21⟩).reg.devices =
        demoState.reg.devices.map (devUpd 100 "dev-1")) ∧
    (∀ x, (devUpd 100 "dev-1" x).id = x.id ∧ (devUpd 100 "dev-1" x).uid = x.uid ∧
        (devUpd 100 "dev-1" x).name = x.name ∧
        (devUpd 100 "dev-1" x).site_id = x.site_id) ∧
    (∀ x, devMatch "dev-1" x = true →
        devUpd 100 "dev-1" x = { x with last_seen := some 100, active := true }) ∧
    (∀ x, devMatch "dev-1" x = false → devUpd 100 "dev-1" x = x) ∧
    ((processEntry 100 "dev-1" demoState ⟨"temperature", "t1", 21⟩).reg.sensors =
        demoState.reg.sensors.map (senUpd 1 "t1" 21 100)) ∧
    (∀ x, (senUpd 1 "t1" 21 100 x).active = x.active ∧
        (senUpd 1 "t1" 21 100 x).id = x.id ∧
        (senUpd 1 "t1" 21 100 x).device_id = x.device_id ∧
        (senUpd 1 "t1" 21 100 x).sensor_name = x.sensor_name ∧
        (senUpd 1 "t1" 21 100 x).sensor_type = x.sensor_type ∧
        (senUpd 1 "t1" 21 100 x).unit = x.unit) ∧
    (∀ x, senMatch 1 "t1" x = true →
        senUpd 1 "t1" 21 100 x =
          { x with last_value := some 21, last_seen := some 100 }) ∧
    (∀ x, senMatch 1 "t1" x = false → senUpd 1 "t1" 21 100 x = x) ∧
    ((processEntry 100 "dev-1" demoState ⟨"temperature", "t1", 21⟩).readings =
        demoState.readings ++
        [{ id := 1, site_id := some 7, device_id := 1, time := 100,
           sensor_name := "t1", sensor_type := "temperature", value := 21,
           unit := none }]) :=
  C5_existing_device_sensor_frame 100 "dev-1" demoState
    ⟨"temperature", "t1", 21⟩
    { id := 1, uid := "dev-1", name := some "node", active := false,
      last_seen := some 10, site_id := some 7 } (by rfl)
    { id := 1, device_id := 1, sensor_name := "t1",
      sensor_type := "temperature", unit := some "C", active := false,
      last_value := some 1, last_seen := some 10 } (by rfl)

/-! ## More registry helper lemmas -/

theorem resolveDevice_sensors (reg : Registry) (uid : String) (now : Nat) :
    (resolveDevice reg uid now).1.sensors = reg.sensors := by
  unfold resolveDevice; split <;> rfl

theorem resolveDevice_nextSensorId (reg : Registry) (uid : String)
    (now : Nat) : (resolveDevice reg uid now).1.nextSensorId = reg.nextSensorId := by
  unfold resolveDevice; split <;> rfl

/-- The sensor row created on a miss. -/
def newSensor (reg : Registry) (devId : Nat) (nm ty : String)
    (unit : Option String) (v : Rat) (now : Nat) : SensorRow :=
  { id := reg.nextSensorId, device_id := devId, sensor_name := nm,
    sensor_type := ty, unit := unit, active := true, last_value := some v,
    last_seen := some now }

theorem upsertSensor_sensors_found (reg : Registry) (devId : Nat)
    (nm ty : String) (unit : Option String) (v : Rat) (now : Nat)
    (s : SensorRow) (hs : reg.sensors.find? (senMatch devId nm) = some s) :
    (upsertSensor reg devId nm ty unit v now).sensors =
      reg.sensors.map (senUpd devId nm v now) := by
  unfold upsertSensor
  rw [hs]

theorem upsertSensor_sensors_none (reg : Registry) (devId : Nat)
    (nm ty : String) (unit : Option String) (v : Rat) (now : Nat)
    (hs : reg.sensors.find? (senMatch devId nm) = none) :
    (upsertSensor reg devId nm ty unit v now).sensors =
      reg.sensors ++ [newSensor reg devId nm ty unit v now] := by
  unfold upsertSensor
  rw [hs]
  rfl

theorem processEntry_reg (now : Nat) (uid : String) (st : IngestState)
    (e : SensorEntry) :
    (processEntry now uid st e).reg =
      upsertSensor (resolveDevice st.reg uid now).1
        (resolveDevice st.reg uid now).2.1 e.id e.type none e.value now := rfl

theorem countP_devices_map (now : Nat) (uid u' : String)
    (l : List DeviceRow) :
    (l.map (devUpd now uid)).countP (devMatch u') = l.countP (devMatch u') := by
  rw [List.countP_map]
  congr 1
  funext x
  exact devMatch_devUpd now u' uid x

theorem countP_sensors_map (devId : Nat) (nm : String) (v : Rat) (now : Nat)
    (j : Nat) (n : String) (l : List SensorRow) :
    (l.map (senUpd devId nm v now)).countP (senMatch j n) =
      l.countP (senMatch j n) := by
  rw [List.countP_map]
  congr 1
  funext x
  exact senMatch_senUpd j n devId nm v now x

theorem processEntry_devices_found (now : Nat) (uid : String)
    (st : IngestState) (e : SensorEntry) (d : DeviceRow)
    (hd : st.reg.devices.find? (devMatch uid) = some d) :
    (processEntry now uid st e).reg.devices =
      st.reg.devices.map (devUpd now uid) := by
  rw [processEntry_reg, upsertSensor_devices]
  exact resolveDevice_devices_found st.reg uid now d hd

theorem processEntry_devices_none (now : Nat) (uid : String)
    (st : IngestState) (e : SensorEntry)
    (hd : st.reg.devices.find? (devMatch uid) = none) :
    (processEntry now uid st e).reg.devices =
      st.reg.devices ++ [newDevice uid now st.reg.nextDeviceId] := by
  rw [processEntry_reg, upsertSensor_devices]
  exact resolveDevice_devices_none st.reg uid now hd

theorem find?_isSome_of_countP_pos {α : Type} (p : α → Bool) (l : List α)
    (h : 0 < l.countP p) : (l.find? p).isSome = true := by
  obtain ⟨a, ha, hpa⟩ := List.countP_pos_iff.1 h
  cases hfind : l.find? p with
  | some b => rfl
  | none => exact absurd hpa (List.find?_eq_none.1 hfind a ha)

/-- Folding a message over a state whose device already exists preserves the
device table's length and every per-uid row count. -/
theorem fold_devices_preserved (now : Nat) (uid : String)
    (entries : List SensorEntry) (st : IngestState)
    (h : 0 < st.reg.devCount uid) :
    ((entries.foldl (processEntry now uid) st).reg.devices.length =
        st.reg.devices.length) ∧
    (∀ u', ((entries.foldl (processEntry now uid) st).reg).devCount u' =
        st.reg.devCount u') := by
  induction entries generalizing st with
  | nil => exact ⟨rfl, fun _ => rfl⟩
  | cons e rest ih =>
      rw [List.foldl_cons]
      have hsome := find?_isSome_of_countP_pos (devMatch uid) st.reg.devices h
      obtain ⟨d, hd⟩ := Option.isSome_iff_exists.1 hsome
      have hdev := processEntry_devices_found now uid st e d hd
      have hcount : ∀ u', (processEntry now uid st e).reg.devCount u' =
          st.reg.devCount u' := by
        intro u'
        unfold Registry.devCount
        rw [hdev]
        exact countP_devices_map now uid u' st.reg.devices
      have hlen : (processEntry now uid st e).reg.devices.length =
          st.reg.devices.length := by
        rw [hdev, List.length_map]
      have h' : 0 < (processEntry now uid st e).reg.devCount uid := by
        rw [hcount uid]
        exact h
      obtain ⟨hl, hc⟩ := ih (processEntry now uid st e) h'
      refine ⟨by rw [hl, hlen], ?_⟩
      intro u'
      rw [hc u', hcount u']

/-- One ingestion step changes the per-key sensor row counts exactly at the
resolved device and the entry's sensor id: a missing row is created (count
becomes one), an existing row is updated in place (count unchanged). -/
theorem processEntry_senCount (now : Nat) (uid : String) (st : IngestState)
    (e : SensorEntry) (i : Nat) (site : Option Nat)
    (hres : resolvedDev st.reg uid = (i, site)) (j : Nat) (n : String) :
    (processEntry now uid st e).reg.senCount j n =
      if j = i ∧ n = e.id then max 1 (st.reg.senCount j n)
      else st.reg.senCount j n := by
  have hi : (resolveDevice st.reg uid now).2.1 = i := by
    rw [resolveDevice_snd, hres]
  unfold Registry.senCount
  rw [processEntry_reg, hi]
  cases hfind : (resolveDevice st.reg uid now).1.sensors.find?
      (senMatch i e.id) with
  | some s =>
      rw [upsertSensor_sensors_found _ _ _ _ _ _ _ s hfind,
        resolveDevice_sensors, countP_sensors_map]
      rw [resolveDevice_sensors] at hfind
      have hpos : 0 < st.reg.sensors.countP (senMatch i e.id) :=
        List.countP_pos_iff.2 ⟨s, List.mem_of_find?_eq_some hfind,
          List.find?_some hfind⟩
      by_cases hc : j = i ∧ n = e.id
      · obtain ⟨rfl, rfl⟩ := hc
        rw [if_pos ⟨rfl, rfl⟩]
        omega
      · rw [if_neg hc]
  | none =>
      rw [upsertSensor_sensors_none _ _ _ _ _ _ _ hfind,
        resolveDevice_sensors, List.countP_append]
      rw [resolveDevice_sensors] at hfind
      have hzero : st.reg.sensors.countP (senMatch i e.id) = 0 :=
        List.countP_eq_zero.2 (List.find?_eq_none.1 hfind)
      have hone : [newSensor (resolveDevice st.reg uid now).1 i e.id e.type
          none e.value now].countP (senMatch j n) =
          if j = i ∧ n = e.id then 1 else 0 := by
        simp only [List.countP_cons, List.countP_nil, senMatch, newSensor,
          Bool.and_eq_true, beq_iff_eq, Nat.zero_add]
        by_cases hc2 : j = i ∧ n = e.id
        · obtain ⟨rfl, rfl⟩ := hc2
          rw [if_pos (⟨rfl, rfl⟩ : j = j ∧ e.id = e.id)]
        · rw [if_neg hc2, if_neg ?_]
          rintro ⟨h1, h2⟩
          exact hc2 ⟨h1.symm, h2.symm⟩
      rw [hone]
      by_cases hc : j = i ∧ n = e.id
      · obtain ⟨rfl, rfl⟩ := hc
        rw [if_pos (⟨rfl, rfl⟩ : j = j ∧ e.id = e.id),
          if_pos (⟨rfl, rfl⟩ : j = j ∧ e.id = e.id), hzero]
        omega
      · rw [if_neg hc, if_neg hc]
        omega

/-- Folding a message: each sensor id of the payload ends with exactly one
row (at least one, and exactly the previous count if it was already
positive); sensor ids not in the payload keep their row count. -/
theorem fold_senCount (now : Nat) (uid : String)
    (entries : List SensorEntry) (st : IngestState) (i : Nat)
    (site : Option Nat) (hres : resolvedDev st.reg uid = (i, site))
    (n : String) :
    ((entries.foldl (processEntry now uid) st).reg).senCount i n =
      if n ∈ entries.map (fun e => e.id) then max 1 (st.reg.senCount i n)
      else st.reg.senCount i n := by
  induction entries generalizing st with
  | nil => simp
  | cons e rest ih =>
      rw [List.foldl_cons]
      have hres' : resolvedDev (processEntry now uid st e).reg uid =
          (i, site) := by
        rw [resolvedDev_processEntry]
        exact hres
      rw [ih (processEntry now uid st e) hres']
      have hstep := processEntry_senCount now uid st e i site hres i n
      by_cases hn : n = e.id
      · rw [if_pos ⟨rfl, hn⟩] at hstep
        rw [hstep]
        have hmem : n ∈ (e :: rest).map (fun e => e.id) := by simp [hn]
        rw [if_pos hmem]
        by_cases hm : n ∈ rest.map (fun e => e.id)
        · rw [if_pos hm]
          omega
        · rw [if_neg hm]
      · rw [if_neg (by tauto)] at hstep
        rw [hstep]
        have hiff : (n ∈ (e :: rest).map (fun e => e.id)) ↔
            (n ∈ rest.map (fun e => e.id)) := by
          simp [hn]
        by_cases hm : n ∈ rest.map (fun e => e.id)
        · rw [if_pos hm, if_pos (hiff.2 hm)]
        · rw [if_neg hm, if_neg (fun hx => hm (hiff.1 hx))]

/-- After processing an entry, every sensor row at the resolved device with
the entry's sensor id carries the entry's value and timestamp as caches. -/
theorem processEntry_establishes_cache (now : Nat) (uid : String)
    (st : IngestState) (e : SensorEntry) (i : Nat) (site : Option Nat)
    (hres : resolvedDev st.reg uid = (i, site)) :
    ∀ s ∈ (processEntry now uid st e).reg.sensors,
      s.device_id = i → s.sensor_name = e.id →
      s.last_seen = some now ∧ s.last_value = some e.value := by
  have hi : (resolveDevice st.reg uid now).2.1 = i := by
    rw [resolveDevice_snd, hres]
  intro s hs hd hn
  rw [processEntry_reg, hi] at hs
  cases hfind : (resolveDevice st.reg uid now).1.sensors.find?
      (senMatch i e.id) with
  | some s0 =>
      rw [upsertSensor_sensors_found _ _ _ _ _ _ _ s0 hfind] at hs
      obtain ⟨x, hx, rfl⟩ := List.mem_map.1 hs
      have hdx : x.device_id = i := by
        rw [← senUpd_device_id i e.id e.value now x]
        exact hd
      have hnx : x.sensor_name = e.id := by
        rw [← senUpd_sensor_name i e.id e.value now x]
        exact hn
      have hmatch : senMatch i e.id x = true := by
        simp [senMatch, hdx, hnx]
      refine ⟨?_, ?_⟩ <;> simp [senUpd, hmatch]
  | none =>
      rw [upsertSensor_sensors_none _ _ _ _ _ _ _ hfind] at hs
      rcases List.mem_append.1 hs with hmem | hmem
      · have hmatch : senMatch i e.id s = true := by
          simp [senMatch, hd, hn]
        exact absurd hmatch (List.find?_eq_none.1 hfind s hmem)
      · rcases List.mem_singleton.1 hmem with rfl
        exact ⟨rfl, rfl⟩

/-- Processing an entry with a different sensor id leaves every property of
the rows at a fixed `(device, sensor)` key intact. -/
theorem processEntry_preserves_cache (now : Nat) (uid : String)
    (st : IngestState) (e : SensorEntry) (i : Nat) (n : String)
    (hne2 : e.id ≠ n) (P : SensorRow → Prop)
    (hst : ∀ s ∈ st.reg.sensors, s.device_id = i → s.sensor_name = n → P s) :
    ∀ s ∈ (processEntry now uid st e).reg.sensors,
      s.device_id = i → s.sensor_name = n → P s := by
  intro s hs hd hn
  rw [processEntry_reg] at hs
  cases hfind : (resolveDevice st.reg uid now).1.sensors.find?
      (senMatch (resolveDevice st.reg uid now).2.1 e.id) with
  | some s0 =>
      rw [upsertSensor_sensors_found _ _ _ _ _ _ _ s0 hfind,
        resolveDevice_sensors] at hs
      obtain ⟨x, hx, rfl⟩ := List.mem_map.1 hs
      have hnx : x.sensor_name = n := by
        rw [← senUpd_sensor_name (resolveDevice st.reg uid now).2.1 e.id
          e.value now x]
        exact hn
      have hdx : x.device_id = i := by
        rw [← senUpd_device_id (resolveDevice st.reg uid now).2.1 e.id
          e.value now x]
        exact hd
      have hfalse : (x.sensor_name == e.id) = false := by
        rw [hnx]
        exact beq_eq_false_iff_ne.2 (fun h => hne2 h.symm)
      have hmatch : senMatch (resolveDevice st.reg uid now).2.1 e.id x
          = false := by
        simp [senMatch, hfalse]
      have hid : senUpd (resolveDevice st.reg uid now).2.1 e.id e.value now x
          = x := by
        unfold senUpd
        rw [hmatch]
        simp
      rw [hid]
      exact hst x hx hdx hnx
  | none =>
      rw [upsertSensor_sensors_none _ _ _ _ _ _ _ hfind,
        resolveDevice_sensors] at hs
      rcases List.mem_append.1 hs with hmem | hmem
      · exact hst s hmem hd hn
      · rcases List.mem_singleton.1 hmem with rfl
        exact absurd hn hne2

/-- Folding a message none of whose entries carry a given sensor id leaves
every property of the rows at that `(device, sensor)` key intact. -/
theorem fold_preserves_cache (now : Nat) (uid : String)
    (entries : List SensorEntry) (st : IngestState) (i : Nat) (n : String)
    (hn : n ∉ entries.map (fun e => e.id)) (P : SensorRow → Prop)
    (hst : ∀ s ∈ st.reg.sensors, s.device_id = i → s.sensor_name = n → P s) :
    ∀ s ∈ (entries.foldl (processEntry now uid) st).reg.sensors,
      s.device_id = i → s.sensor_name = n → P s := by
  induction entries generalizing st with
  | nil => exact hst
  | cons e rest ih =>
      rw [List.foldl_cons]
      have hn1 : e.id ≠ n := by
        intro h
        exact hn (by simp [h])
      have hn2 : n ∉ rest.map (fun e => e.id) := by
        intro h
        exact hn (by simp [h])
      exact ih (processEntry now uid st e) hn2
        (processEntry_preserves_cache now uid st e i n hn1 P hst)

/-- Folding a message: every sensor row of the resolved device named by a
payload entry ends with `last_seen = now` and the value of one of the
entries with its sensor id as `last_value`. -/
theorem fold_sensor_caches (now : Nat) (uid : String)
    (entries : List SensorEntry) (st : IngestState) (i : Nat)
    (site : Option Nat) (hres : resolvedDev st.reg uid = (i, site)) :
    ∀ s ∈ (entries.foldl (processEntry now uid) st).reg.sensors,
      s.device_id = i → s.sensor_name ∈ entries.map (fun e => e.id) →
      s.last_seen = some now ∧
      ∃ e ∈ entries, e.id = s.sensor_name ∧ s.last_value = some e.value := by
  induction entries generalizing st with
  | nil =>
      intro s hs hd hn
      simp at hn
  | cons e rest ih =>
      intro s hs hd hn
      rw [List.foldl_cons] at hs
      have hres' : resolvedDev (processEntry now uid st e).reg uid =
          (i, site) := by
        rw [resolvedDev_processEntry]
        exact hres
      by_cases hm : s.sensor_name ∈ rest.map (fun e => e.id)
      · obtain ⟨hseen, e', he', heq, hval⟩ :=
          ih (processEntry now uid st e) hres' s hs hd hm
        exact ⟨hseen, e', List.mem_cons_of_mem e he', heq, hval⟩
      · have hname : s.sensor_name = e.id := by
          rcases (by simpa using hn : s.sensor_name = e.id ∨
              s.sensor_name ∈ rest.map (fun e => e.id)) with h | h
          · exact h
          · exact absurd h hm
        have hpres := fold_preserves_cache now uid rest
          (processEntry now uid st e) i e.id (hname ▸ hm)
          (fun x => x.last_seen = some now ∧ x.last_value = some e.value)
          (fun x hx hdx hnx =>
            processEntry_establishes_cache now uid st e i site hres x hx hdx hnx)
        obtain ⟨hseen, hval⟩ := hpres s hs hd hname
        exact ⟨hseen, e, List.mem_cons_self e rest, hname.symm, hval⟩

/-- In a well-formed registry no sensor row references the device id the
next created device will get. -/
theorem senCount_fresh_device (reg : Registry) (hwf : reg.WF) (n : String) :
    reg.senCount reg.nextDeviceId n = 0 := by
  unfold Registry.senCount
  rw [List.countP_eq_zero]
  intro s hs hp
  obtain ⟨hids, -, -, -, hfk⟩ := hwf
  obtain ⟨d, hd, hdi⟩ := hfk s hs
  simp only [senMatch, Bool.and_eq_true, beq_iff_eq] at hp
  have := hids d hd
  omega

/-- Folding a message all of whose sensors already exist on the resolved
device creates no sensor rows. -/
theorem fold_sensors_length_preserved (now : Nat) (uid : String)
    (entries : List SensorEntry) (st : IngestState) (i : Nat)
    (site : Option Nat) (hres : resolvedDev st.reg uid = (i, site))
    (hall : ∀ e ∈ entries, 0 < st.reg.senCount i e.id) :
    (entries.foldl (processEntry now uid) st).reg.sensors.length =
      st.reg.sensors.length := by
  induction entries generalizing st with
  | nil => rfl
  | cons e rest ih =>
      rw [List.foldl_cons]
      have hpos : 0 < st.reg.senCount i e.id :=
        hall e (List.mem_cons_self e rest)
      have hsome := find?_isSome_of_countP_pos (senMatch i e.id)
        st.reg.sensors hpos
      obtain ⟨s0, hfind⟩ := Option.isSome_iff_exists.1 hsome
      have hi : (resolveDevice st.reg uid now).2.1 = i := by
        rw [resolveDevice_snd, hres]
      have hsensors : (processEntry now uid st e).reg.sensors =
          st.reg.sensors.map (senUpd i e.id e.value now) := by
        rw [processEntry_reg, hi,
          upsertSensor_sensors_found _ _ _ _ _ _ _ s0
            (by rw [resolveDevice_sensors]; exact hfind),
          resolveDevice_sensors]
      have hres' : resolvedDev (processEntry now uid st e).reg uid =
          (i, site) := by
        rw [resolvedDev_processEntry]
        exact hres
      have hall' : ∀ e' ∈ rest,
          0 < (processEntry now uid st e).reg.senCount i e'.id := by
        intro e' he'
        rw [processEntry_senCount now uid st e i site hres i e'.id]
        have hprev := hall e' (List.mem_cons_of_mem e he')
        by_cases hc : i = i ∧ e'.id = e.id
        · rw [if_pos hc]
          omega
        · rw [if_neg hc]
          exact hprev
      rw [ih (processEntry now uid st e) hres' hall', hsensors,
        List.length_map]

/-! ## Claim C3 -/

/-- C3: for a previously-unseen device uid, ingesting a first well-formed
message creates exactly one Device row (total device count up by one, uid
count one) and exactly one Sensor row per distinct sensor id in the payload
(count one for payload ids, zero otherwise, at the created device);
ingesting a second message for the same uid and sensors creates zero
additional Device or Sensor rows and only refreshes the sensors'
`last_value`/`last_seen` caches. -/
theorem C3_first_message_creates_once (now now2 : Nat) (st : IngestState)
    (msg : ParsedMsg) (hwf : st.reg.WF)
    (hfresh : st.reg.devCount msg.device_id = 0) (hne : msg.sensors ≠ []) :
    (ingestParsed now st msg).reg.devCount msg.device_id = 1 ∧
    (ingestParsed now st msg).reg.devices.length =
        st.reg.devices.length + 1 ∧
    (∀ n, (ingestParsed now st msg).reg.senCount st.reg.nextDeviceId n =
        if n ∈ msg.sensors.map (fun e => e.id) then 1 else 0) ∧
    (ingestParsed now2 (ingestParsed now st msg) msg).reg.devices.length =
        (ingestParsed now st msg).reg.devices.length ∧
    (ingestParsed now2 (ingestParsed now st msg) msg).reg.sensors.length =
        (ingestParsed now st msg).reg.sensors.length ∧
    (∀ s ∈ (ingestParsed now2 (ingestParsed now st msg) msg).reg.sensors,
        s.device_id = st.reg.nextDeviceId →
        s.sensor_name ∈ msg.sensors.map (fun e => e.id) →
        s.last_seen = some now2 ∧
        ∃ e ∈ msg.sensors, e.id = s.sensor_name ∧
          s.last_value = some e.value) := by
  have hfresh' : st.reg.devices.countP (devMatch msg.device_id) = 0 := hfresh
  have hfind0 : st.reg.devices.find? (devMatch msg.device_id) = none :=
    List.find?_eq_none.2 (List.countP_eq_zero.1 hfresh')
  have hres : resolvedDev st.reg msg.device_id =
      (st.reg.nextDeviceId, none) := by
    unfold resolvedDev
    rw [hfind0]
  have hig : ∀ (nw : Nat) (s0 : IngestState), ingestParsed nw s0 msg =
      msg.sensors.foldl (processEntry nw msg.device_id) s0 :=
    fun _ _ => rfl
  obtain ⟨e, rest, hmsg⟩ := List.exists_cons_of_ne_nil hne
  have hstep := processEntry_devices_none now msg.device_id st e hfind0
  have hcount1 : (processEntry now msg.device_id st e).reg.devCount
      msg.device_id = 1 := by
    unfold Registry.devCount
    rw [hstep, List.countP_append, hfresh']
    simp [devMatch, newDevice]
  have hlen1 : (processEntry now msg.device_id st e).reg.devices.length =
      st.reg.devices.length + 1 := by
    rw [hstep]
    simp
  obtain ⟨hlenf, hcountf⟩ := fold_devices_preserved now msg.device_id rest
    (processEntry now msg.device_id st e) (by rw [hcount1]; norm_num)
  have hdev1 : (ingestParsed now st msg).reg.devCount msg.device_id = 1 := by
    rw [hig now st, hmsg, List.foldl_cons, hcountf msg.device_id, hcount1]
  have hdevlen1 : (ingestParsed now st msg).reg.devices.length =
      st.reg.devices.length + 1 := by
    rw [hig now st, hmsg, List.foldl_cons, hlenf, hlen1]
  have hsen1 : ∀ n, (ingestParsed now st msg).reg.senCount
      st.reg.nextDeviceId n =
      if n ∈ msg.sensors.map (fun e => e.id) then 1 else 0 := by
    intro n
    rw [hig now st, fold_senCount now msg.device_id msg.sensors st
      st.reg.nextDeviceId none hres n, senCount_fresh_device st.reg hwf n]
    by_cases hm : n ∈ msg.sensors.map (fun e => e.id)
    · rw [if_pos hm, if_pos hm]
      omega
    · rw [if_neg hm, if_neg hm]
  have hres1 : resolvedDev (ingestParsed now st msg).reg msg.device_id =
      (st.reg.nextDeviceId, none) := by
    rw [hig now st, resolvedDev_fold]
    exact hres
  obtain ⟨hlenf2, -⟩ := fold_devices_preserved now2 msg.device_id
    msg.sensors (ingestParsed now st msg) (by rw [hdev1]; norm_num)
  have hdevlen2 : (ingestParsed now2 (ingestParsed now st msg) msg).reg.devices.length =
      (ingestParsed now st msg).reg.devices.length := by
    rw [hig now2 (ingestParsed now st msg)]
    exact hlenf2
  have hall2 : ∀ e' ∈ msg.sensors,
      0 < (ingestParsed now st msg).reg.senCount st.reg.nextDeviceId e'.id := by
    intro e' he'
    rw [hsen1 e'.id, if_pos (List.mem_map.2 ⟨e', he', rfl⟩)]
    norm_num
  have hsenlen2 : (ingestParsed now2 (ingestParsed now st msg) msg).reg.sensors.length =
      (ingestParsed now st msg).reg.sensors.length := by
    rw [hig now2 (ingestParsed now st msg)]
    exact fold_sensors_length_preserved now2 msg.device_id msg.sensors
      (ingestParsed now st msg) st.reg.nextDeviceId none hres1 hall2
  refine ⟨hdev1, hdevlen1, hsen1, hdevlen2, hsenlen2, ?_⟩
  have hcache := fold_sensor_caches now2 msg.device_id msg.sensors
    (ingestParsed now st msg) st.reg.nextDeviceId none hres1
  intro s hs hd hn
  exact hcache s (by rw [hig now2 (ingestParsed now st msg)] at hs; exact hs)
    hd hn

/-- An empty store with fresh serial counters. -/
def emptyState : IngestState := ⟨⟨[], [], 1, 1⟩, [], 1⟩

/-- A concrete two-sensor message for a fresh device. -/
def demoMsg : ParsedMsg :=
  ⟨"dev-9", [⟨"temperature", "t1", 21⟩, ⟨"moisture", "m1", 40⟩]⟩

theorem emptyState_WF : emptyState.reg.WF := by
  refine ⟨?_, ?_, ?_, ?_, ?_⟩ <;> simp [emptyState]

/-- Witness for C3 at the empty store and the two-sensor message. -/
theorem C3_witness :
    emptyState.reg.WF ∧
    emptyState.reg.devCount demoMsg.device_id = 0 ∧
    demoMsg.sensors ≠ [] ∧
    ((ingestParsed 5 emptyState demoMsg).reg.devCount demoMsg.device_id = 1 ∧
      (ingestParsed 5 emptyState demoMsg).reg.devices.length =
        emptyState.reg.devices.length + 1 ∧
      (∀ n, (ingestParsed 5 emptyState demoMsg).reg.senCount
          emptyState.reg.nextDeviceId n =
        if n ∈ demoMsg.sensors.map (fun e => e.id) then 1 else 0) ∧
      (ingestParsed 9 (ingestParsed 5 emptyState demoMsg)
          demoMsg).reg.devices.length =
        (ingestParsed 5 emptyState demoMsg).reg.devices.length ∧
      (ingestParsed 9 (ingestParsed 5 emptyState demoMsg)
          demoMsg).reg.sensors.length =
        (ingestParsed 5 emptyState demoMsg).reg.sensors.length ∧
      (∀ s ∈ (ingestParsed 9 (ingestParsed 5 emptyState demoMsg)
          demoMsg).reg.sensors,
        s.device_id = emptyState.reg.nextDeviceId →
        s.sensor_name ∈ demoMsg.sensors.map (fun e => e.id) →
        s.last_seen = some 9 ∧
        ∃ e ∈ demoMsg.sensors, e.id = s.sensor_name ∧
          s.last_value = some e.value)) :=
  ⟨emptyState_WF, rfl, by simp [demoMsg],
    C3_first_message_creates_once 5 9 emptyState demoMsg emptyState_WF rfl
      (by simp [demoMsg])⟩

/-! ## Claim C9 -/

/-- The content of a reading row, excluding the surrogate serial id. -/
def readingContent (r : ReadingRow) :
    Option Nat × Nat × Time × String × String × Rat :=
  (r.site_id, r.device_id, r.time, r.sensor_name, r.sensor_type, r.value)

/-- The reading row one entry appends. -/
def newReading (st : IngestState) (now : Nat) (uid : String)
    (e : SensorEntry) : ReadingRow :=
  { id := st.nextReadingId, site_id := (resolveDevice st.reg uid now).2.2,
    device_id := (resolveDevice st.reg uid now).2.1, time := now,
    sensor_name := e.id, sensor_type := e.type, value := e.value,
    unit := none }

/-- Ingestion only appends to the readings store. -/
theorem readings_append_only (now : Nat) (uid : String)
    (entries : List SensorEntry) (st : IngestState) :
    ∃ tail, (entries.foldl (processEntry now uid) st).readings =
      st.readings ++ tail := by
  induction entries generalizing st with
  | nil => exact ⟨[], by simp⟩
  | cons e rest ih =>
      rw [List.foldl_cons]
      obtain ⟨tail, htail⟩ := ih (processEntry now uid st e)
      have hr : (processEntry now uid st e).readings = st.readings ++
          [newReading st now uid e] := rfl
      exact ⟨[newReading st now uid e] ++ tail,
        by rw [htail, hr, List.append_assoc]⟩

/-- The content rows a message appends are determined by the resolver's
id/site resolution and the entry list alone — independent of serial ids and
of whatever readings are already stored. -/
theorem readings_content_delta (now : Nat) (uid : String)
    (entries : List SensorEntry) (st : IngestState) (i : Nat)
    (site : Option Nat) (hres : resolvedDev st.reg uid = (i, site)) :
    ((entries.foldl (processEntry now uid) st).readings).map readingContent =
      st.readings.map readingContent ++
        entries.map (fun e => (site, i, now, e.id, e.type, e.value)) := by
  induction entries generalizing st with
  | nil => simp
  | cons e rest ih =>
      rw [List.foldl_cons]
      have hres' : resolvedDev (processEntry now uid st e).reg uid = (i, site) := by
        rw [resolvedDev_processEntry]
        exact hres
      rw [ih (processEntry now uid st e) hres']
      have hsnd : (resolveDevice st.reg uid now).2 = (i, site) := by
        rw [resolveDevice_snd, hres]
      have hr : (processEntry now uid st e).readings = st.readings ++
          [{ id := st.nextReadingId, site_id := site, device_id := i,
             time := now, sensor_name := e.id, sensor_type := e.type,
             value := e.value, unit := none }] := by
        unfold processEntry
        simp only
        rw [hsnd]
      rw [hr]
      simp [readingContent]

/-- C9: reading insertion is append-only — ingestion never updates or
deletes an existing Reading row, it only appends — and the store accepts
duplicates: ingesting the same message a second time appends a second batch
of rows with exactly the same (site, device, timestamp, sensor, value)
content, one row per entry each time. -/
theorem C9_duplicate_ingest_append_only (now : Nat) (st : IngestState)
    (msg : ParsedMsg) :
    (∃ t₁, (ingestParsed now st msg).readings = st.readings ++ t₁) ∧
    (∃ t₂, (ingestParsed now (ingestParsed now st msg) msg).readings =
        (ingestParsed now st msg).readings ++ t₂) ∧
    (ingestParsed now st msg).readings.length =
        st.readings.length + msg.sensors.length ∧
    (ingestParsed now (ingestParsed now st msg) msg).readings.length =
        st.readings.length + 2 * msg.sensors.length ∧
    ((ingestParsed now st msg).readings.drop st.readings.length).map
        readingContent =
      ((ingestParsed now (ingestParsed now st msg) msg).readings.drop
          (ingestParsed now st msg).readings.length).map readingContent := by
  rcases h : resolvedDev st.reg msg.device_id with ⟨i, site⟩
  have hres1 : resolvedDev (ingestParsed now st msg).reg msg.device_id =
      (i, site) := by
    unfold ingestParsed
    rw [resolvedDev_fold]
    exact h
  have h1 := readings_content_delta now msg.device_id msg.sensors st i site h
  have h2 := readings_content_delta now msg.device_id msg.sensors
    (ingestParsed now st msg) i site hres1
  have hlen1 : (ingestParsed now st msg).readings.length =
      st.readings.length + msg.sensors.length := by
    have := congrArg List.length h1
    simpa [ingestParsed] using this
  have hlen2 : (ingestParsed now (ingestParsed now st msg) msg).readings.length =
      (ingestParsed now st msg).readings.length + msg.sensors.length := by
    have := congrArg List.length h2
    simpa [ingestParsed] using this
  have hdrop : ∀ a b : IngestState,
      (b.readings.map readingContent = a.readings.map readingContent ++
        msg.sensors.map (fun e => (site, i, now, e.id, e.type, e.value))) →
      (b.readings.drop a.readings.length).map readingContent =
        msg.sensors.map (fun e => (site, i, now, e.id, e.type, e.value)) := by
    intro a b hab
    rw [List.map_drop, hab]
    have : a.readings.length = (a.readings.map readingContent).length := by
      rw [List.length_map]
    rw [this, List.drop_left]
  refine ⟨?_, ?_, hlen1, by omega, ?_⟩
  · exact readings_append_only now msg.device_id msg.sensors st
  · exact readings_append_only now msg.device_id msg.sensors
      (ingestParsed now st msg)
  · rw [hdrop st (ingestParsed now st msg) (by simpa [ingestParsed] using h1),
        hdrop (ingestParsed now st msg)
          (ingestParsed now (ingestParsed now st msg) msg)
          (by simpa [ingestParsed] using h2)]

/-! ## Claim C4 -/

/-- C4: a message whose payload fails to parse is rejected with a
`ValidationError` and produces no partial writes — the state returned by the
pipeline is exactly the input state, so zero Device, Sensor and Reading rows
are created. -/
theorem C4_malformed_payload_rejected_without_writes (now : Nat) (st : IngestState)
    (payload : Json) (h : parseMessage payload = none) :
    handleMessage now st payload = (st, some ApiError.ValidationError) := by
  unfold handleMessage
  rw [h]

/-- Witness for C4: a payload missing `device_id` fails to parse and leaves
an empty store empty. -/
theorem C4_witness :
    parseMessage (Json.obj [("sensors", Json.arr [])]) = none ∧
    handleMessage 0 ⟨⟨[], [], 1, 1⟩, [], 1⟩ (Json.obj [("sensors", Json.arr [])]) =
      (⟨⟨[], [], 1, 1⟩, [], 1⟩, some ApiError.ValidationError) :=
  ⟨rfl, C4_malformed_payload_rejected_without_writes 0 ⟨⟨[], [], 1, 1⟩, [], 1⟩
    (Json.obj [("sensors", Json.arr [])]) rfl⟩

/-! ## Claim C6 -/

instance : IsTotal ReadingRow (fun a b => a.time ≤ b.time) :=
  ⟨fun a b => Nat.le_total a.time b.time⟩

instance : IsTrans ReadingRow (fun a b => a.time ≤ b.time) :=
  ⟨fun _ _ _ h1 h2 => Nat.le_trans h1 h2⟩

/-- C6: `history(device_uid, {hours: N})` returns readings ordered by
ascending timestamp, and every returned reading belongs to the device and
has its timestamp within `[now − N hours, now]` (milliseconds, with
truncated subtraction at the epoch). -/
theorem C6_history_sorted_in_window (devId hours now : Nat)
    (readings : List ReadingRow) :
    List.Sorted (fun a b : ReadingRow => a.time ≤ b.time)
      (historyQuery devId hours now readings) ∧
    ∀ r ∈ historyQuery devId hours now readings,
      r.device_id = devId ∧ now - hours * 3600000 ≤ r.time ∧ r.time ≤ now := by
  constructor
  · exact List.sorted_insertionSort _ _
  · intro r hr
    have hmem : r ∈ readings.filter (fun r => r.device_id == devId
        && decide (now - hours * 3600000 ≤ r.time) && decide (r.time ≤ now)) :=
      (List.perm_insertionSort (fun a b : ReadingRow => a.time ≤ b.time)
        _).mem_iff.1 hr
    rw [List.mem_filter] at hmem
    have hp := hmem.2
    simp only [Bool.and_eq_true, beq_iff_eq, decide_eq_true_eq] at hp
    exact ⟨hp.1.1, hp.1.2, hp.2⟩

/-! ## Claim C1 -/

/-- The capability check denies a non-admin caller whose permitted site set
does not cover the device's site — and denies identically when the device
is missing or unassigned. -/
theorem authorize_denies_out_of_scope (caller : Caller)
    (devices : List DeviceRow) (uid : String)
    (hrole : caller.role ≠ Role.sys_admin)
    (hscope : ∀ d ∈ devices, d.uid = uid →
        ∀ sId, d.site_id = some sId → sId ∉ caller.siteIds) :
    authorizeDeviceQuery caller devices uid =
      Except.error ApiError.AuthorizationError := by
  unfold authorizeDeviceQuery
  split
  · rw [if_neg hrole]
  · rename_i d hfind
    have hmem := List.mem_of_find?_eq_some hfind
    have huid : d.uid = uid := by simpa [devMatch] using List.find?_some hfind
    rw [if_neg hrole]
    split
    · rename_i sId hsite
      rw [if_neg (hscope d hmem huid sId hsite)]
    · rfl

/-- C1: a valid non-`sys_admin` caller whose permitted site set does not
include the target device's site receives `AuthorizationError` from both
`latest` and `history` — never an empty result — and receives exactly the
same error when the device row does not exist at all, so the response
content does not reveal whether the device exists. -/
theorem C1_unauthorized_indistinguishable (caller : Caller) (reg : Registry)
    (readings : List ReadingRow) (uid : String) (hours now : Nat)
    (hrole : caller.role ≠ Role.sys_admin)
    (hscope : ∀ d ∈ reg.devices, d.uid = uid →
        ∀ sId, d.site_id = some sId → sId ∉ caller.siteIds) :
    latestService caller reg uid =
        Except.error ApiError.AuthorizationError ∧
    historyService caller reg readings uid hours now =
        Except.error ApiError.AuthorizationError ∧
    latestService caller
        { reg with devices := reg.devices.filter (fun d => ! devMatch uid d) }
        uid = Except.error ApiError.AuthorizationError ∧
    historyService caller
        { reg with devices := reg.devices.filter (fun d => ! devMatch uid d) }
        readings uid hours now =
        Except.error ApiError.AuthorizationError := by
  have hauth := authorize_denies_out_of_scope caller reg.devices uid hrole
    hscope
  have hscope' : ∀ d ∈ reg.devices.filter (fun d => ! devMatch uid d),
      d.uid = uid → ∀ sId, d.site_id = some sId → sId ∉ caller.siteIds := by
    intro d hd hduid
    rw [List.mem_filter] at hd
    have : devMatch uid d = true := by simp [devMatch, hduid]
    rw [this] at hd
    cases hd.2
  have hauth' := authorize_denies_out_of_scope caller
    (reg.devices.filter (fun d => ! devMatch uid d)) uid hrole hscope'
  refine ⟨?_, ?_, ?_, ?_⟩
  · unfold latestService
    rw [hauth]
  · unfold historyService
    rw [hauth]
  · unfold latestService
    rw [hauth']
  · unfold historyService
    rw [hauth']

/-- A restricted caller assigned only to site 1. -/
def demoCaller : Caller := ⟨Role.user, [1]⟩

/-- Witness for C1: the demo store's device sits on site 7, outside the
demo caller's set. -/
theorem C1_witness :
    latestService demoCaller demoState.reg "dev-1" =
        Except.error ApiError.AuthorizationError ∧
    historyService demoCaller demoState.reg [] "dev-1" 24 1000 =
        Except.error ApiError.AuthorizationError ∧
    latestService demoCaller
        { demoState.reg with devices :=
            demoState.reg.devices.filter (fun d => ! devMatch "dev-1" d) }
        "dev-1" = Except.error ApiError.AuthorizationError ∧
    historyService demoCaller
        { demoState.reg with devices :=
            demoState.reg.devices.filter (fun d => ! devMatch "dev-1" d) }
        [] "dev-1" 24 1000 = Except.error ApiError.AuthorizationError :=
  C1_unauthorized_indistinguishable demoCaller demoState.reg [] "dev-1" 24
    1000 (by decide)
    (by
      intro d hd hduid sId hsite
      simp only [demoState, List.mem_singleton] at hd
      subst hd
      simp only [Option.some.injEq] at hsite
      subst hsite
      decide)

end SmartAllotment
